import Mathlib

/-!
# Verification of the Story-Generator audio/story pipeline

Shallow embedding of `Story_Generator_Using_Image/Story_Generation.py` and
`Story_Generator_Using_Image/app.py`.

The only non-trivial local computation of the program is the PCM-to-WAV
wrapping step of `generate_audio_from_generated_story`, which is performed by
Python's standard-library `wave` module (`Wave_write` with
`setnchannels(1)`, `setsampwidth(2)`, `setframerate(24000)`, one
`writeframes(audio_data)` call, then `close()` via the context manager).
The `wave` module (CPython 3.11 `Lib/wave.py`) is therefore embedded here
byte-for-byte: `Wave_write` as a record, its methods as `Except`-valued
state transformers (a raised Python exception is `.error`), and the
`BytesIO` buffer as a `List Nat` of byte values.  `struct.pack('<L', v)`
raises for `v ≥ 2^32`; this bound is kept.  The host is modelled as
little-endian, so the `sys.byteorder == 'big'` byte-swap branch of
`writeframesraw` is a no-op.

Reading a WAV container back (the round-trip direction of the spec) is the
`Wave_read` class of the same module: RIFF chunk walk, `_read_fmt_chunk`,
then `readframes(getnframes())`.
-/

deriving instance DecidableEq for Except

namespace StoryGen

/-- Little-endian encoding of a 16-bit value, as `struct.pack('<H', n)`. -/
def u16le (n : Nat) : List Nat := [n % 256, n / 256 % 256]

/-- Little-endian encoding of a 32-bit value, as `struct.pack('<L', n)`. -/
def u32le (n : Nat) : List Nat :=
  [n % 256, n / 256 % 256, n / 65536 % 256, n / 16777216 % 256]

/-- Value of two little-endian bytes, as `struct.unpack('<H', bs)`. -/
def u16from (bs : List Nat) : Nat :=
  match bs with
  | [b0, b1] => b0 + 256 * b1
  | _ => 0

/-- Value of four little-endian bytes, as `struct.unpack('<L', bs)`. -/
def u32from (bs : List Nat) : Nat :=
  match bs with
  | [b0, b1, b2, b3] => b0 + 256 * b1 + 65536 * b2 + 16777216 * b3
  | _ => 0

/-- Model of `struct.pack('<L', n)`: raises `struct.error` out of range. -/
def packU32 (n : Nat) : Except String (List Nat) :=
  if n < 4294967296 then .ok (u32le n) else .error "struct.error: argument out of range"

/-- Model of `struct.pack('<H', n)`: raises `struct.error` out of range. -/
def packU16 (n : Nat) : Except String (List Nat) :=
  if n < 65536 then .ok (u16le n) else .error "struct.error: argument out of range"

theorem u32from_u32le (n : Nat) (h : n < 4294967296) : u32from (u32le n) = n := by
  simp only [u32le, u32from]
  omega

theorem bind_ok_eq {α β : Type} (a : α) (f : α → Except String β) :
    (Except.ok a >>= f) = f a := rfl

theorem bind_error_eq {α β : Type} (e : String) (f : α → Except String β) :
    ((Except.error e : Except String α) >>= f) = .error e := rfl

/-- State of `wave.Wave_write` (CPython `Lib/wave.py`), with the underlying
`BytesIO` buffer inlined as `buf` and the two header-patch seek positions
recorded as they are by `_write_header`. -/
structure Wave_write where
  nchannels : Nat
  sampwidth : Nat
  framerate : Nat
  nframes : Nat
  nframeswritten : Nat
  datawritten : Nat
  datalength : Nat
  headerwritten : Bool
  form_length_pos : Nat
  data_length_pos : Nat
  buf : List Nat
deriving Repr, DecidableEq

/-- `Wave_write.initfp` on a fresh `BytesIO()`. -/
def waveInit : Wave_write :=
  ⟨0, 0, 0, 0, 0, 0, 0, false, 0, 0, []⟩

/-- `Wave_write.setnchannels`. -/
def wave_setnchannels (w : Wave_write) (nchannels : Nat) : Except String Wave_write :=
  if w.datawritten ≠ 0 then .error "cannot change parameters after starting to write"
  else if nchannels < 1 then .error "bad # of channels"
  else .ok { w with nchannels := nchannels }

/-- `Wave_write.setsampwidth`. -/
def wave_setsampwidth (w : Wave_write) (sampwidth : Nat) : Except String Wave_write :=
  if w.datawritten ≠ 0 then .error "cannot change parameters after starting to write"
  else if sampwidth < 1 ∨ sampwidth > 4 then .error "bad sample width"
  else .ok { w with sampwidth := sampwidth }

/-- `Wave_write.setframerate` (restricted to the `Nat` rates the program
uses; `framerate ≤ 0` is the Python error case). -/
def wave_setframerate (w : Wave_write) (framerate : Nat) : Except String Wave_write :=
  if w.datawritten ≠ 0 then .error "cannot change parameters after starting to write"
  else if framerate = 0 then .error "bad frame rate"
  else .ok { w with framerate := framerate }

/-- `Wave_write._write_header(initlength)`: writes the 44-byte RIFF/WAVE
header (the `'<L4s4sLHHLLHH4s'` struct plus the trailing data-length word)
and records the two patch positions. -/
def wave_write_header (w : Wave_write) (initlength : Nat) : Except String Wave_write := do
  let buf1 := w.buf ++ [82, 73, 70, 70]
  let nframes := if w.nframes = 0 then initlength / (w.nchannels * w.sampwidth) else w.nframes
  let datalength := nframes * w.nchannels * w.sampwidth
  let flp := buf1.length
  let fl ← packU32 (36 + datalength)
  let sz ← packU32 16
  let tag ← packU16 1
  let nch ← packU16 w.nchannels
  let fr ← packU32 w.framerate
  let ab ← packU32 (w.nchannels * w.framerate * w.sampwidth)
  let ba ← packU16 (w.nchannels * w.sampwidth)
  let bits ← packU16 (w.sampwidth * 8)
  let buf2 := buf1 ++ fl ++ [87, 65, 86, 69] ++ [102, 109, 116, 32] ++ sz ++ tag ++ nch
      ++ fr ++ ab ++ ba ++ bits ++ [100, 97, 116, 97]
  let dlp := buf2.length
  let dl ← packU32 datalength
  .ok { w with nframes := nframes, datalength := datalength, headerwritten := true,
               form_length_pos := flp, data_length_pos := dlp, buf := buf2 ++ dl }

/-- `Wave_write._ensure_header_written(datasize)`. -/
def wave_ensure_header (w : Wave_write) (datasize : Nat) : Except String Wave_write :=
  if w.headerwritten then .ok w
  else if w.nchannels = 0 then .error "# channels not specified"
  else if w.sampwidth = 0 then .error "sample width not specified"
  else if w.framerate = 0 then .error "sampling rate not specified"
  else wave_write_header w datasize

/-- Overwrite `repl.length` bytes of `buf` at offset `pos`: the effect of
`seek(pos)` followed by `write(repl)` on a `BytesIO` whose length exceeds
`pos + repl.length`. -/
def spliceAt (buf : List Nat) (pos : Nat) (repl : List Nat) : List Nat :=
  buf.take pos ++ repl ++ buf.drop (pos + repl.length)

/-- `Wave_write._patchheader`. -/
def wave_patchheader (w : Wave_write) : Except String Wave_write :=
  if w.datawritten = w.datalength then .ok w
  else do
    let fl ← packU32 (36 + w.datawritten)
    let dl ← packU32 w.datawritten
    .ok { w with
          buf := spliceAt (spliceAt w.buf w.form_length_pos fl) w.data_length_pos dl,
          datalength := w.datawritten }

/-- `Wave_write.writeframesraw(data)` on a little-endian host. -/
def wave_writeframesraw (w : Wave_write) (data : List Nat) : Except String Wave_write := do
  let w ← wave_ensure_header w data.length
  let nframes := data.length / (w.sampwidth * w.nchannels)
  .ok { w with buf := w.buf ++ data,
               datawritten := w.datawritten + data.length,
               nframeswritten := w.nframeswritten + nframes }

/-- `Wave_write.writeframes(data)`. -/
def wave_writeframes (w : Wave_write) (data : List Nat) : Except String Wave_write := do
  let w ← wave_writeframesraw w data
  if w.datalength ≠ w.datawritten then wave_patchheader w else .ok w

/-- `Wave_write.close()` (the buffer-flushing part relevant to the bytes). -/
def wave_close (w : Wave_write) : Except String Wave_write := do
  let w ← wave_ensure_header w 0
  if w.datalength ≠ w.datawritten then wave_patchheader w else .ok w

/-- The PCM-to-WAV wrapping step of `generate_audio_from_generated_story`
(Story_Generation.py lines 280-289): `wave.open(BytesIO(), 'wb')` with
channels 1, sample width 2, frame rate 24000, a single
`writeframes(audio_data)`, and the context-manager `close()`; the result is
the bytes of the `BytesIO` buffer. -/
def wav_encode (audio_data : List Nat) : Except String (List Nat) := do
  let w := waveInit
  let w ← wave_setnchannels w 1
  let w ← wave_setsampwidth w 2
  let w ← wave_setframerate w 24000
  let w ← wave_writeframes w audio_data
  let w ← wave_close w
  .ok w.buf

/-- The 44-byte header `wav_encode` emits in front of a payload whose
declared data length is `n` (format constants 1 channel, 2-byte samples,
24000 Hz). -/
def wavHeader (n : Nat) : List Nat :=
  [82, 73, 70, 70] ++ u32le (36 + n) ++ [87, 65, 86, 69] ++ [102, 109, 116, 32]
    ++ u32le 16 ++ u16le 1 ++ u16le 1 ++ u32le 24000 ++ u32le 48000 ++ u16le 2
    ++ u16le 16 ++ [100, 97, 116, 97] ++ u32le n

/-- The data-length field of a container produced by `wav_encode`: the four
little-endian bytes at offset 40. -/
def declaredDataLen (c : List Nat) : Nat := u32from ((c.drop 40).take 4)

example : wav_encode [7, 7] =
    .ok [82, 73, 70, 70, 38, 0, 0, 0, 87, 65, 86, 69, 102, 109, 116, 32,
         16, 0, 0, 0, 1, 0, 1, 0, 192, 93, 0, 0, 128, 187, 0, 0, 2, 0, 16, 0,
         100, 97, 116, 97, 2, 0, 0, 0, 7, 7] := by decide

example : wav_encode [7, 7] = .ok (wavHeader 2 ++ [7, 7]) := by decide

example : wav_encode [7] = .ok (wavHeader 1 ++ [7]) := by decide

example : wav_encode [] = .ok (wavHeader 0) := by decide

/-!
## The decoder: `wave.Wave_read`

`Wave_read.initfp` walks the RIFF chunks of the byte buffer (each chunk is a
4-byte name, a 4-byte little-endian size, and that many payload bytes,
skipped with 2-byte alignment), reads the `'fmt '` chunk, and stops at the
`'data'` chunk, setting `nframes = chunksize // framesize`.  A short read
while constructing a chunk raises `EOFError`, which `initfp` turns into the
missing-chunk error; a short read inside `_read_fmt_chunk` raises an
uncaught `EOFError`.  `readframes(getnframes())` then returns the frame
bytes of the data chunk. -/

/-- Format parameters read back from a container: channel count, sample
width in bytes, and frame rate. -/
structure WavFmt where
  nchannels : Nat
  sampwidth : Nat
  framerate : Nat
deriving Repr, DecidableEq

/-- `Wave_read._read_fmt_chunk`, applied to the chunk's payload bytes
(already limited to the chunk size).  Returns the format parameters and the
frame size `nchannels * sampwidth`. -/
def read_fmt_chunk (chunkData : List Nat) : Except String (WavFmt × Nat) :=
  if chunkData.length < 14 then .error "EOFError"
  else
    let wFormatTag := u16from (chunkData.take 2)
    let nchannels := u16from ((chunkData.drop 2).take 2)
    let framerate := u32from ((chunkData.drop 4).take 4)
    if wFormatTag = 1 then
      if chunkData.length < 16 then .error "EOFError"
      else
        let sampbits := u16from ((chunkData.drop 14).take 2)
        let sampwidth := (sampbits + 7) / 8
        if sampwidth = 0 then .error "bad sample width"
        else if nchannels = 0 then .error "bad # of channels"
        else .ok (⟨nchannels, sampwidth, framerate⟩, nchannels * sampwidth)
    else .error "unknown format"

/-- The chunk loop of `Wave_read.initfp`, over the bytes remaining after the
`WAVE` id.  Returns the format info, the frame size, the `data` chunk's
declared size, and the bytes following the `data` chunk header.  The fuel
argument only bounds the `while 1` loop; every iteration consumes at least
8 bytes, so any fuel above `bs.length` is enough. -/
def wav_chunks (fmt : Option (WavFmt × Nat)) (bs : List Nat) :
    Nat → Except String (WavFmt × Nat × Nat × List Nat)
  | 0 => .error "fuel exhausted"
  | fuel + 1 =>
    if bs.length < 4 then .error "fmt chunk and/or data chunk missing"
    else if (bs.drop 4).length < 4 then .error "fmt chunk and/or data chunk missing"
    else
      let chunkname := bs.take 4
      let chunksize := u32from ((bs.drop 4).take 4)
      let body := bs.drop 8
      if chunkname = [102, 109, 116, 32] then
        match read_fmt_chunk (body.take chunksize) with
        | .error e => .error e
        | .ok f => wav_chunks (some f) (body.drop (chunksize + chunksize % 2)) fuel
      else if chunkname = [100, 97, 116, 97] then
        match fmt with
        | none => .error "data chunk before fmt chunk"
        | some f => .ok (f.1, f.2, chunksize, body)
      else wav_chunks fmt (body.drop (chunksize + chunksize % 2)) fuel

/-- Decoding a WAV byte buffer: `Wave_read.initfp` followed by
`getnchannels() / getsampwidth() / getframerate() / getnframes()` and
`readframes(getnframes())`.  Returns the format parameters, the frame
count, and the PCM payload bytes. -/
def wav_decode (bs : List Nat) : Except String (WavFmt × Nat × List Nat) :=
  if bs.length < 4 then .error "EOFError"
  else if (bs.drop 4).length < 4 then .error "EOFError"
  else if bs.take 4 ≠ [82, 73, 70, 70] then .error "file does not start with RIFF id"
  else
    let formsize := u32from ((bs.drop 4).take 4)
    let content := (bs.drop 8).take formsize
    if content.take 4 ≠ [87, 65, 86, 69] then .error "not a WAVE file"
    else
      match wav_chunks none (content.drop 4) (content.length + 1) with
      | .error e => .error e
      | .ok (f, framesize, chunksize, body) =>
        let nframes := chunksize / framesize
        let data := body.take (min (nframes * framesize) chunksize)
        .ok (f, nframes, data)

example : wav_decode (wavHeader 2 ++ [7, 9]) = .ok (⟨1, 2, 24000⟩, 1, [7, 9]) := by decide

example : wav_decode (wavHeader 0) = .ok (⟨1, 2, 24000⟩, 0, []) := by decide

example : wav_decode (wavHeader 1 ++ [7]) = .ok (⟨1, 2, 24000⟩, 0, []) := by decide

/-!
## Symbolic evaluation of the encoder

`wav_encode` always emits `wavHeader p.length ++ p` (whatever the parity of
`p.length`): for even lengths the header is right on first write, for odd
lengths `writeframes` notices `datalength ≠ datawritten` and `_patchheader`
rewrites both length fields to the actual byte count.  The only failure is
`struct.error` when a length field exceeds 32 bits. -/

/-- State of the writer after the three `set*` calls of
`generate_audio_from_generated_story`. -/
def waveSet : Wave_write :=
  ⟨1, 2, 24000, 0, 0, 0, 0, false, 0, 0, []⟩

theorem wave_set_steps :
    (do
      let w := waveInit
      let w ← wave_setnchannels w 1
      let w ← wave_setsampwidth w 2
      let w ← wave_setframerate w 24000
      pure w : Except String Wave_write) = .ok waveSet := by decide

theorem wave_write_header_eval (n : Nat) :
    wave_write_header waveSet n =
      if 36 + n / 2 * 2 < 4294967296 then
        .ok { waveSet with
                nframes := n / 2
                datalength := n / 2 * 2
                headerwritten := true
                form_length_pos := 4
                data_length_pos := 40
                buf := wavHeader (n / 2 * 2) }
      else .error "struct.error: argument out of range" := by
  by_cases hb : 36 + n / 2 * 2 < 4294967296
  · have hd : n / 2 * 2 < 4294967296 := by omega
    simp [wave_write_header, waveSet, packU32, packU16, hb, hd, bind_ok_eq,
      wavHeader, u32le, u16le]
  · simp [wave_write_header, waveSet, packU32, packU16, hb, bind_ok_eq, bind_error_eq]

/-- The writer state after `writeframes(p)` succeeds (and, for odd lengths,
after `_patchheader` has run): both length fields hold `p.length` and the
buffer is the final container. -/
def waveFinal (p : List Nat) : Wave_write :=
  { nchannels := 1
    sampwidth := 2
    framerate := 24000
    nframes := p.length / 2
    nframeswritten := p.length / 2
    datawritten := p.length
    datalength := p.length
    headerwritten := true
    form_length_pos := 4
    data_length_pos := 40
    buf := wavHeader p.length ++ p }

theorem wave_ensure_waveSet (k : Nat) :
    wave_ensure_header waveSet k = wave_write_header waveSet k := rfl

set_option maxHeartbeats 2000000 in
theorem wavHeader_patch (m n : Nat) (p : List Nat) :
    spliceAt (spliceAt (wavHeader m ++ p) 4 (u32le (36 + n))) 40 (u32le n) =
      wavHeader n ++ p := rfl

theorem wave_writeframes_eval (p : List Nat) :
    wave_writeframes waveSet p =
      if 36 + p.length < 4294967296 then .ok (waveFinal p)
      else .error "struct.error: argument out of range" := by
  by_cases hb1 : 36 + p.length / 2 * 2 < 4294967296
  · have hh : wave_write_header waveSet p.length =
        .ok ⟨1, 2, 24000, p.length / 2, 0, 0, p.length / 2 * 2, true, 4, 40,
             wavHeader (p.length / 2 * 2)⟩ := by
      rw [wave_write_header_eval, if_pos hb1]
      rfl
    simp only [wave_writeframes, wave_writeframesraw, wave_ensure_waveSet, hh, bind_ok_eq]
    simp only [Nat.zero_add, Nat.mul_one]
    rcases Nat.mod_two_eq_zero_or_one p.length with h2 | h2
    · have he : p.length / 2 * 2 = p.length := by omega
      rw [he] at hb1 ⊢
      rw [if_neg (show ¬ p.length ≠ p.length from fun h => h rfl), if_pos hb1]
      rfl
    · rw [if_pos (show p.length / 2 * 2 ≠ p.length by omega)]
      simp only [wave_patchheader]
      rw [if_neg (show ¬ p.length = p.length / 2 * 2 by omega)]
      simp only [packU32]
      by_cases hb2 : 36 + p.length < 4294967296
      · rw [if_pos hb2, bind_ok_eq, if_pos (show p.length < 4294967296 by omega),
          bind_ok_eq, if_pos hb2, wavHeader_patch]
        rfl
      · rw [if_neg hb2, bind_error_eq, if_neg hb2]
  · have hh : wave_write_header waveSet p.length =
        .error "struct.error: argument out of range" := by
      rw [wave_write_header_eval, if_neg hb1]
    simp only [wave_writeframes, wave_writeframesraw, wave_ensure_waveSet, hh, bind_error_eq]
    rw [if_neg (show ¬ 36 + p.length < 4294967296 by omega)]

theorem wave_close_final (p : List Nat) :
    wave_close (waveFinal p) = .ok (waveFinal p) := by
  simp [wave_close, wave_ensure_header, waveFinal, bind_ok_eq]

/-- Complete symbolic evaluation of the encoder: for every payload `p`
(whatever its parity) the emitted container is the fixed 44-byte header,
with both length fields equal to `p.length`, followed by `p` verbatim; the
only failure is `struct.error` once a length field no longer fits in 32
bits. -/
theorem wav_encode_eq (p : List Nat) :
    wav_encode p =
      if 36 + p.length < 4294967296 then .ok (wavHeader p.length ++ p)
      else .error "struct.error: argument out of range" := by
  have h0 : wav_encode p =
      (wave_writeframes waveSet p >>= fun w => wave_close w >>= fun w2 => .ok w2.buf) := rfl
  rw [h0, wave_writeframes_eval]
  by_cases hb : 36 + p.length < 4294967296
  · rw [if_pos hb, if_pos hb, bind_ok_eq, wave_close_final, bind_ok_eq]
    rfl
  · rw [if_neg hb, if_neg hb, bind_error_eq]

/-!
## Symbolic evaluation of the decoder on encoder output -/

/-- The bytes of `wavHeader n ++ p` after the RIFF id and the form-size
word: the `WAVE` id, the complete `fmt ` chunk, and the `data` chunk
header. -/
def wavAfter8 (n : Nat) : List Nat :=
  [87, 65, 86, 69, 102, 109, 116, 32, 16, 0, 0, 0, 1, 0, 1, 0, 192, 93, 0, 0,
   128, 187, 0, 0, 2, 0, 16, 0, 100, 97, 116, 97] ++ u32le n

theorem wavAfter8_length (n : Nat) : (wavAfter8 n).length = 36 := by
  simp [wavAfter8, u32le]

theorem wavHeader_append_cons (n : Nat) (p : List Nat) :
    wavHeader n ++ p =
      82 :: 73 :: 70 :: 70 :: ((36 + n) % 256) :: ((36 + n) / 256 % 256) ::
        ((36 + n) / 65536 % 256) :: ((36 + n) / 16777216 % 256) :: (wavAfter8 n ++ p) := by
  simp [wavHeader, wavAfter8, u32le, u16le]

theorem wav_decode_cons (s0 s1 s2 s3 : Nat) (tail : List Nat) :
    wav_decode (82 :: 73 :: 70 :: 70 :: s0 :: s1 :: s2 :: s3 :: tail) =
      (if (tail.take (u32from [s0, s1, s2, s3])).take 4 ≠ [87, 65, 86, 69] then
        Except.error "not a WAVE file"
       else
         match wav_chunks none ((tail.take (u32from [s0, s1, s2, s3])).drop 4)
             ((tail.take (u32from [s0, s1, s2, s3])).length + 1) with
         | .error e => .error e
         | .ok (f, framesize, chunksize, body) =>
           .ok (f, chunksize / framesize,
                body.take (min (chunksize / framesize * framesize) chunksize))) := rfl

theorem wav_chunks_fmt_step (fmt0 : Option (WavFmt × Nat)) (rest : List Nat) (fuel : Nat) :
    wav_chunks fmt0 (102 :: 109 :: 116 :: 32 :: 16 :: 0 :: 0 :: 0 :: 1 :: 0 :: 1 :: 0 ::
        192 :: 93 :: 0 :: 0 :: 128 :: 187 :: 0 :: 0 :: 2 :: 0 :: 16 :: 0 :: rest) (fuel + 1) =
      wav_chunks (some (⟨1, 2, 24000⟩, 2)) rest fuel := by
  simp [wav_chunks, read_fmt_chunk, u16from, u32from]
  rw [if_neg (by omega), if_neg (by omega)]

theorem wav_chunks_data_step (f : WavFmt × Nat) (b0 b1 b2 b3 : Nat) (rest : List Nat)
    (fuel : Nat) :
    wav_chunks (some f) (100 :: 97 :: 116 :: 97 :: b0 :: b1 :: b2 :: b3 :: rest) (fuel + 1) =
      .ok (f.1, f.2, u32from [b0, b1, b2, b3], rest) := rfl

theorem wav_decode_header (n : Nat) (p : List Nat) (h : 36 + n < 4294967296) :
    wav_decode (wavHeader n ++ p) =
      .ok (⟨1, 2, 24000⟩, n / 2, (p.take n).take (n / 2 * 2)) := by
  rw [wavHeader_append_cons, wav_decode_cons]
  rw [show u32from [(36 + n) % 256, (36 + n) / 256 % 256, (36 + n) / 65536 % 256,
        (36 + n) / 16777216 % 256] = 36 + n from u32from_u32le (36 + n) h]
  have hco : (wavAfter8 n ++ p).take (36 + n) = wavAfter8 n ++ p.take n := by
    rw [List.take_append_eq_append_take, wavAfter8_length]
    rw [List.take_of_length_le (by rw [wavAfter8_length]; omega)]
    rw [show 36 + n - 36 = n by omega]
  rw [hco]
  rw [if_neg (show ¬ ((wavAfter8 n ++ p.take n).take 4 ≠ [87, 65, 86, 69]) by
    simp [wavAfter8])]
  have hdrop : (wavAfter8 n ++ p.take n).drop 4 =
      102 :: 109 :: 116 :: 32 :: 16 :: 0 :: 0 :: 0 :: 1 :: 0 :: 1 :: 0 ::
        192 :: 93 :: 0 :: 0 :: 128 :: 187 :: 0 :: 0 :: 2 :: 0 :: 16 :: 0 ::
        (100 :: 97 :: 116 :: 97 :: (n % 256) :: (n / 256 % 256) :: (n / 65536 % 256) ::
          (n / 16777216 % 256) :: p.take n) := by
    simp [wavAfter8, u32le]
  have hlen : (wavAfter8 n ++ p.take n).length = ((p.take n).length + 35) + 1 := by
    rw [List.length_append, wavAfter8_length]
    omega
  rw [hdrop, hlen, wav_chunks_fmt_step]
  rw [show (p.take n).length + 36 = ((p.take n).length + 35) + 1 by omega,
    wav_chunks_data_step]
  rw [show u32from [n % 256, n / 256 % 256, n / 65536 % 256, n / 16777216 % 256] = n
      from u32from_u32le n (by omega)]
  dsimp only
  rw [min_eq_left (Nat.div_mul_le_self n 2)]

theorem wavHeader_drop40 (n : Nat) (p : List Nat) :
    (wavHeader n ++ p).drop 40 = u32le n ++ p := by
  simp [wavHeader, u32le, u16le]

theorem wavHeader_drop44 (n : Nat) (p : List Nat) :
    (wavHeader n ++ p).drop 44 = p := by
  simp [wavHeader, u32le, u16le]

theorem wavHeader_append_length (n : Nat) (p : List Nat) :
    (wavHeader n ++ p).length = 44 + p.length := by
  simp [wavHeader, u32le, u16le]
  omega

theorem declaredDataLen_wavHeader (n : Nat) (p : List Nat) (h : n < 4294967296) :
    declaredDataLen (wavHeader n ++ p) = n := by
  rw [declaredDataLen, wavHeader_drop40]
  rw [show (u32le n ++ p).take 4 = u32le n by simp [u32le]]
  exact u32from_u32le n h

/-!
## Claims C1-C3: the audio container encoder -/

/-- C1: round-trip law of the audio container encoder.  For every PCM byte
buffer `p` whose length is a multiple of 2, whenever the wave-wrapping step
of `generate_audio_from_generated_story` produces a container `c` from `p`,
decoding `c` yields exactly `p`, and the decoded format parameters are
1 channel, 2-byte (16-bit) samples, 24000 Hz. -/
theorem C1_wav_roundtrip (p c : List Nat) (h2 : p.length % 2 = 0)
    (henc : wav_encode p = .ok c) :
    wav_decode c = .ok (⟨1, 2, 24000⟩, p.length / 2, p) := by
  rw [wav_encode_eq] at henc
  by_cases hb : 36 + p.length < 4294967296
  · rw [if_pos hb] at henc
    injection henc with hc
    subst hc
    rw [wav_decode_header p.length p hb, List.take_length,
      show p.length / 2 * 2 = p.length by omega, List.take_length]
  · rw [if_neg hb] at henc
    exact absurd henc (by simp)

/-- Witness for C1 at the two-byte buffer `[0, 0]`. -/
theorem C1_wav_roundtrip_witness :
    [0, 0].length % 2 = 0 ∧ wav_encode [0, 0] = .ok (wavHeader 2 ++ [0, 0]) ∧
      wav_decode (wavHeader 2 ++ [0, 0]) = .ok (⟨1, 2, 24000⟩, 1, [0, 0]) :=
  ⟨by decide, by decide,
    C1_wav_roundtrip [0, 0] (wavHeader 2 ++ [0, 0]) (by decide) (by decide)⟩

/-- C2: header correctness of the encoder.  For every valid PCM buffer `p`
(length a multiple of 2, the empty buffer included), the container produced
by the wave-wrapping step declares a data length equal to `p.length`, and
its total size is the 44-byte header plus `p.length`. -/
theorem C2_wav_header_correct (p c : List Nat) (h2 : p.length % 2 = 0)
    (henc : wav_encode p = .ok c) :
    declaredDataLen c = p.length ∧ c.length = 44 + p.length := by
  rw [wav_encode_eq] at henc
  by_cases hb : 36 + p.length < 4294967296
  · rw [if_pos hb] at henc
    injection henc with hc
    subst hc
    exact ⟨declaredDataLen_wavHeader p.length p (by omega), wavHeader_append_length p.length p⟩
  · rw [if_neg hb] at henc
    exact absurd henc (by simp)

/-- Witness for C2 at 48000 zero bytes (one second of silence at the fixed
format): total container size is header size + 48000 and the declared data
length decodes back to 48000. -/
theorem C2_wav_header_correct_witness :
    (List.replicate 48000 (0 : Nat)).length % 2 = 0 ∧
      wav_encode (List.replicate 48000 0) = .ok (wavHeader 48000 ++ List.replicate 48000 0) ∧
      declaredDataLen (wavHeader 48000 ++ List.replicate 48000 0) = 48000 ∧
      (wavHeader 48000 ++ List.replicate 48000 0).length = 44 + 48000 := by
  have hlen : (List.replicate 48000 (0 : Nat)).length = 48000 := List.length_replicate 48000 0
  have henc : wav_encode (List.replicate 48000 0) =
      .ok (wavHeader 48000 ++ List.replicate 48000 0) := by
    rw [wav_encode_eq, hlen, if_pos (by omega)]
  have hmain := C2_wav_header_correct (List.replicate 48000 0) _ (by rw [hlen]) henc
  rw [hlen] at hmain
  exact ⟨by rw [hlen], henc, hmain.1, hmain.2⟩

/-- C3 counterexample: encoding the odd-length buffer `[7]` neither fails
nor truncates to the frame boundary: it returns a container whose payload
is the full byte `[7]` and whose declared data length is 1 (a truncating
encoder would have written no payload bytes and declared 0). -/
theorem C3_odd_counterexample :
    wav_encode [7] = .ok (wavHeader 1 ++ [7]) ∧
      (wavHeader 1 ++ [7]).drop 44 = [7] ∧
      declaredDataLen (wavHeader 1 ++ [7]) = 1 :=
  ⟨by decide, by decide, by decide⟩

/-- C3 amended: for every odd-length PCM buffer `p`, the encoder neither
raises a malformed-data error nor truncates: whenever it returns a
container, the container carries all of `p` verbatim after the 44-byte
header, and `writeframes` has patched the header so the declared data
length equals `p.length` — so the header never disagrees with the payload
actually written. -/
theorem C3_odd_encode_behavior (p c : List Nat) (h2 : p.length % 2 = 1)
    (henc : wav_encode p = .ok c) :
    c.drop 44 = p ∧ declaredDataLen c = p.length ∧ c.length = 44 + p.length := by
  rw [wav_encode_eq] at henc
  by_cases hb : 36 + p.length < 4294967296
  · rw [if_pos hb] at henc
    injection henc with hc
    subst hc
    exact ⟨wavHeader_drop44 p.length p, declaredDataLen_wavHeader p.length p (by omega),
      wavHeader_append_length p.length p⟩
  · rw [if_neg hb] at henc
    exact absurd henc (by simp)

/-- Witness for the amended C3 at the odd buffer `[7]`. -/
theorem C3_odd_encode_behavior_witness :
    [7].length % 2 = 1 ∧ wav_encode [7] = .ok (wavHeader 1 ++ [7]) ∧
      (wavHeader 1 ++ [7]).drop 44 = [7] ∧
      declaredDataLen (wavHeader 1 ++ [7]) = [7].length ∧
      (wavHeader 1 ++ [7]).length = 44 + [7].length := by
  have h := C3_odd_encode_behavior [7] (wavHeader 1 ++ [7]) (by decide) (by decide)
  exact ⟨by decide, by decide, h.1, h.2.1, h.2.2⟩

/-!
## The narrative request builder: `story_prompt`

`story_prompt` (Story_Generation.py lines 156-186) is a Python f-string
with a single interpolation site `{story_type}`: the concatenation of a
fixed prefix, the genre argument, and a fixed suffix.  It performs no
validation of its argument. -/

/-- The f-string text before the `story_type` interpolation site. -/
def storyPromptPre : String :=
  "\n        You are a professional and skilled storyteller. Your job is to write a **"

/-- The f-string text after the `story_type` interpolation site, with the
exact line breaks and trailing spaces of the source. -/
def storyPromptSuf : String :=
  " story** using the uploaded images as your inspiration.\n" ++
  "        Use simple and easy to understand english\n" ++
  "        **Instructions:**\n" ++
  "        1. Look carefully at all the uploaded images. Imagine what could be happening in each one.  \n" ++
  "        2. Write a story that connects all the images **in order**. Each image should feel like one scene in the story.  \n" ++
  "        3. The story must have **at least 7 clear paragraphs**:\n" ++
  "        - **Paragraph 1:** Begin the story — set the place, time, and main character(s).  \n" ++
  "        - **Paragraphs 2-5:** Build the story using ideas from each image. Keep the flow natural and smooth.  \n" ++
  "        - **Paragraph 6:** Add an important or surprising moment (the climax).  \n" ++
  "        - **Paragraph 7:** End with a meaningful or emotional ending.  \n" ++
  "        4. Match the **tone and feeling** to the selected story type:  \n" ++
  "        - Horror → spooky and mysterious  \n" ++
  "        - Comedy → light and funny  \n" ++
  "        - Adventure → exciting and bold  \n" ++
  "        - Emotional → touching and heartfelt  \n" ++
  "        - Thriller → full of suspense  \n" ++
  "        - Moral → gives a life lesson  \n" ++
  "        - Fantasy → magical and creative  \n" ++
  "        - Fairy Tale → simple and dreamlike  \n" ++
  "        - Action → fast and powerful  \n" ++
  "        - Mystery → curious and clever  \n" ++
  "        5. Don\x27t describe the images directly. Instead, **turn what you see into a smooth story** that feels natural and human.  \n" ++
  "        6. Write in **simple, clear, and beautiful English** that anyone can enjoy reading.  \n" ++
  "        7. The story should be **500-700 words** long and **feel complete**.\n" ++
  "\n" ++
  "        Now write the full story using these images as inspiration.\n" ++
  "        "

/-- `story_prompt(story_type)`: the f-string as concatenation. -/
def story_prompt (story_type : String) : String :=
  storyPromptPre ++ story_type ++ storyPromptSuf

/-- The ten genre labels of the `st.sidebar.selectbox` dropdown in app.py
(lines 190-204), the only values the UI ever passes as `story_type`. -/
def app_story_types : List String :=
  ["Comedy", "Thriller", "Moral", "Horror", "Emotional", "Adventurous",
   "Action", "Mysterious", "Fantasy", "Fairy Tale"]

/-- Tone keyword the prompt's tone guide (instruction 4) pairs with each
genre of the app selector.  The guide labels the `Adventurous` and
`Mysterious` selector entries `Adventure` and `Mystery`; their tone
phrases are the ones given on those lines. -/
def genre_tone_keyword : String → String
  | "Comedy" => "light and funny"
  | "Thriller" => "full of suspense"
  | "Moral" => "gives a life lesson"
  | "Horror" => "spooky and mysterious"
  | "Emotional" => "touching and heartfelt"
  | "Adventurous" => "exciting and bold"
  | "Action" => "fast and powerful"
  | "Mysterious" => "curious and clever"
  | "Fantasy" => "magical and creative"
  | "Fairy Tale" => "simple and dreamlike"
  | _ => ""

/-- Boolean test that `pat` is a prefix of `s` (on character lists). -/
def charPre : List Char → List Char → Bool
  | [], _ => true
  | _ :: _, [] => false
  | c :: cs, d :: ds => c == d && charPre cs ds

/-- Boolean test that `pat` occurs contiguously somewhere in `s`. -/
def hasSubList (pat : List Char) : List Char → Bool
  | [] => pat.isEmpty
  | d :: ds => charPre pat (d :: ds) || hasSubList pat ds

/-- String-level substring test used to state the content claims. -/
def strHasSub (s pat : String) : Bool := hasSubList pat.data s.data

theorem charPre_self_append (xs rest : List Char) : charPre xs (xs ++ rest) = true := by
  induction xs with
  | nil => rfl
  | cons c cs ih => simp [charPre, ih]

theorem hasSubList_of_charPre (pat s : List Char) (h : charPre pat s = true) :
    hasSubList pat s = true := by
  cases s with
  | nil =>
      cases pat with
      | nil => rfl
      | cons c cs => exact absurd h (by simp [charPre])
  | cons d ds => simp [hasSubList, h]

theorem hasSubList_append_left (pre pat post : List Char) :
    hasSubList pat (pre ++ pat ++ post) = true := by
  induction pre with
  | nil => exact hasSubList_of_charPre pat (pat ++ post) (charPre_self_append pat post)
  | cons a pre ih =>
      rw [List.cons_append, List.cons_append]
      simp only [hasSubList]
      rw [ih, Bool.or_true]

theorem strHasSub_prompt (g : String) : strHasSub (story_prompt g) g = true := by
  have hd : (story_prompt g).data = storyPromptPre.data ++ g.data ++ storyPromptSuf.data := by
    simp [story_prompt]
  rw [strHasSub, hd]
  exact hasSubList_append_left storyPromptPre.data g.data storyPromptSuf.data

/-!
## Claims C5-C6: the prompt builder -/

set_option maxRecDepth 20000 in
/-- C5: prompt determinism and content.  `story_prompt` is a pure function
(calling it twice on the same genre gives syntactically the same result),
and for each of the 10 genres of the app selector its output contains the
genre's name and the genre's tone keyword from the prompt's tone guide. -/
theorem C5_story_prompt_deterministic_and_content (g : String) (hg : g ∈ app_story_types) :
    story_prompt g = story_prompt g ∧ strHasSub (story_prompt g) g = true ∧
      strHasSub (story_prompt g) (genre_tone_keyword g) = true := by
  refine ⟨rfl, strHasSub_prompt g, ?_⟩
  fin_cases hg <;> decide

set_option maxRecDepth 20000 in
/-- Witness for C5 at the genre `Comedy`. -/
theorem C5_story_prompt_deterministic_and_content_witness :
    "Comedy" ∈ app_story_types ∧
      (story_prompt "Comedy" = story_prompt "Comedy" ∧
        strHasSub (story_prompt "Comedy") "Comedy" = true ∧
        strHasSub (story_prompt "Comedy") (genre_tone_keyword "Comedy") = true) :=
  ⟨by decide, C5_story_prompt_deterministic_and_content "Comedy" (by decide)⟩

set_option maxRecDepth 20000 in
/-- C6 counterexample: `story_prompt` does not fail on the undefined genre
value `Dinosaur`; it returns a prompt that embeds the unknown value — the
behavior the claim says must not happen. -/
theorem C6_invalid_genre_counterexample :
    "Dinosaur" ∉ app_story_types ∧
      strHasSub (story_prompt "Dinosaur") "Dinosaur" = true :=
  ⟨by decide, strHasSub_prompt "Dinosaur"⟩

/-- C6 amended: `story_prompt` performs no validation at all: for every
input string, defined genre or not, it returns the prompt template with the
input interpolated (so the closed genre set is enforced only by the UI
dropdown, and no InvalidGenre failure exists in the code). -/
theorem C6_story_prompt_no_validation (g : String) :
    strHasSub (story_prompt g) g = true :=
  strHasSub_prompt g

set_option maxRecDepth 20000 in
/-- Witness for the amended C6 at the undefined genre value `Dinosaur`. -/
theorem C6_story_prompt_no_validation_witness :
    strHasSub (story_prompt "Dinosaur") "Dinosaur" = true :=
  C6_story_prompt_no_validation "Dinosaur"

/-!
## Claim C7: module initialization fails fast without a credential

Story_Generation.py module level (lines 68-104): `api_key =
os.getenv("GOOGLE_API_KEY")`, then `if not api_key: raise ValueError(...)`,
then `client = genai.Client(api_key=api_key)`.  The module body is a
straight-line sequence, so the client construction (and everything after
it, including any remote call) is reached only if the raise did not
happen. -/

/-- Python truthiness of the optional environment value: `not api_key` is
true exactly for `None` and the empty string. -/
def falsy : Option String → Bool
  | none => true
  | some s => s.isEmpty

/-- The authenticated `genai.Client`, which every remote call in the module
goes through. -/
structure Client where
  api_key : String
deriving Repr, DecidableEq

/-- The module-level initialization sequence of Story_Generation.py as a
function of the `GOOGLE_API_KEY` environment value: either the
`ValueError` raised before any client exists, or the constructed client. -/
def module_init (env_google_api_key : Option String) : Except String Client :=
  let api_key := env_google_api_key
  if falsy api_key then .error "!!!API KEY NOT FOUND!!!"
  else .ok ⟨api_key.getD ""⟩

/-- C7: missing-credential fail-fast.  When the environment secret is
absent or empty, module initialization stops with the `ValueError` message
and no client is ever constructed — hence no generation or synthesis call
(all of which go through the client) can be issued in that state. -/
theorem C7_missing_credential_fail_fast (env : Option String)
    (h : env = none ∨ env = some "") :
    module_init env = .error "!!!API KEY NOT FOUND!!!" ∧
      ∀ c : Client, module_init env ≠ .ok c := by
  rcases h with rfl | rfl <;>
    exact ⟨rfl, fun c hc => Except.noConfusion hc⟩

/-- Witness for C7 with the environment variable absent. -/
theorem C7_missing_credential_fail_fast_witness :
    ((none : Option String) = none ∨ (none : Option String) = some "") ∧
      (module_init none = .error "!!!API KEY NOT FOUND!!!" ∧
        ∀ c : Client, module_init none ≠ .ok c) :=
  ⟨Or.inl rfl, C7_missing_credential_fail_fast none (Or.inl rfl)⟩

/-!
## Claim C8: image count bound -/

/-- The fixed generation model name of Story_Generation.py. -/
def model_name_1 : String := "gemini-2.5-pro"

/-- The fixed synthesis model name of Story_Generation.py. -/
def model_name_2 : String := "gemini-2.5-flash-preview-tts"

/-- The request `client.models.generate_content` receives: model name, the
image list, and the prompt. -/
structure GenRequest (α : Type) where
  model : String
  images : List α
  prompt : String

/-- `generate_story_from_images(images, story_type)` (lines 211-217): the
request it submits through the client.  It performs no validation of the
image list itself. -/
def generate_story_from_images {α : Type} (client : Client) (images : List α)
    (story_type : String) : GenRequest α :=
  { model := model_name_1, images := images, prompt := story_prompt story_type }

/-- The upload-limiting step of app.py (lines 177-179): if images were
uploaded and there are more than 10, warn and keep only the first 10. -/
def limit_uploaded_images {α : Type} (uploaded : List α) : List α :=
  if uploaded.isEmpty = false ∧ uploaded.length > 10 then uploaded.take 10 else uploaded

/-- The generation path of app.py (lines 287-295): open each (already
limited) uploaded file as a PIL image and call
`generate_story_from_images`. -/
def app_generate_request {α β : Type} (client : Client) (openImg : α → β)
    (uploaded : List α) (story_type : String) : GenRequest β :=
  generate_story_from_images client ((limit_uploaded_images uploaded).map openImg) story_type

/-- C8: image count bound.  For every upload of 11 or more images, the app
deterministically truncates to the first 10 before calling the remote
service: the request's image list is the image of the first 10 uploads, so
never more than 10 images are forwarded. -/
theorem C8_image_count_bound {α β : Type} (client : Client) (openImg : α → β)
    (uploaded : List α) (story_type : String) (h : 11 ≤ uploaded.length) :
    (app_generate_request client openImg uploaded story_type).images =
      (uploaded.take 10).map openImg ∧
    (app_generate_request client openImg uploaded story_type).images.length = 10 := by
  have hne : uploaded.isEmpty = false := by
    cases uploaded with
    | nil => simp at h
    | cons a l => rfl
  unfold app_generate_request generate_story_from_images limit_uploaded_images
  rw [if_pos ⟨hne, by omega⟩]
  refine ⟨rfl, ?_⟩
  simp only [List.length_map, List.length_take]
  omega

/-- Witness for C8 at a list of 11 items. -/
theorem C8_image_count_bound_witness :
    11 ≤ (List.range 11).length ∧
      ((app_generate_request ⟨"key"⟩ id (List.range 11) "Comedy").images =
          ((List.range 11).take 10).map id ∧
        (app_generate_request ⟨"key"⟩ id (List.range 11) "Comedy").images.length = 10) :=
  ⟨by simp, C8_image_count_bound ⟨"key"⟩ id (List.range 11) "Comedy" (by simp)⟩

/-!
## Claims C4, C9, C10: the audio generation flow

`generate_audio_from_generated_story` (Story_Generation.py lines 248-306)
is one `try` block around: the remote TTS call, the `hasattr(audio_part,
'inline_data')` check, the wave wrapping, and the temp-file write; every
`Exception` is caught and turned into `return None`, and the
missing-payload branch prints a message and returns `None`.  The outcomes
of the external boundary (the remote call and the filesystem) are
enumerated by `TtsOutcome`; the second component of the result records
whether a temporary `.wav` file is on disk when the call returns
(`NamedTemporaryFile(delete=False)` creates it, nothing in the function
deletes it). -/

/-- Outcome of the remote synthesis call and the temp-file write. -/
inductive TtsOutcome where
  /-- The remote call (or indexing `candidates[0].content.parts[0]`)
  raised an exception. -/
  | remoteRaised
  /-- Transport-level success, but the response part carries no
  `inline_data` payload. -/
  | noInlineData
  /-- An inline PCM payload is present; `writeRaises` says whether writing
  the temporary file raises after the file has been created. -/
  | inlineData (pcm : List Nat) (writeRaises : Bool)

/-- The name `NamedTemporaryFile` hands back (opaque). -/
def tempWavPath : String := "tmp.wav"

/-- The body of the `try` block: `.error` is a raised exception (paired
with whether the temp file already exists on disk), `.ok` is a normal
return of the Python function (return value, temp file on disk). -/
def audio_try_body (o : TtsOutcome) : Except (String × Bool) (Option String × Bool) :=
  match o with
  | .remoteRaised => .error ("exception in remote call", false)
  | .noInlineData => .ok (none, false)
  | .inlineData pcm writeRaises =>
    match wav_encode pcm with
    | .error e => .error (e, false)
    | .ok _buf =>
      if writeRaises then .error ("exception while writing temp file", true)
      else .ok (some tempWavPath, true)

/-- `generate_audio_from_generated_story(story_text)`: the `try` body with
the catch-all `except Exception` that prints and returns `None`.  Result:
(returned value, temp file on disk at return). -/
def generate_audio_from_generated_story (story_text : String) (o : TtsOutcome) :
    Option String × Bool :=
  match audio_try_body o with
  | .ok r => r
  | .error (_e, disk) => (none, disk)

/-- C4 counterexample: for the input `"Hello world"` of the spec's
scenario B, a transport-successful response with no inline audio payload
produces exactly the same caller-visible result as a transport failure —
`None` — so no distinct NoAudioInResponse condition is distinguishable by
the caller. -/
theorem C4_no_audio_counterexample :
    generate_audio_from_generated_story "Hello world" TtsOutcome.noInlineData =
      generate_audio_from_generated_story "Hello world" TtsOutcome.remoteRaised ∧
    generate_audio_from_generated_story "Hello world" TtsOutcome.noInlineData =
      (none, false) :=
  ⟨rfl, rfl⟩

/-- C4 amended: when the synthesis response succeeds at the transport level
but carries no inline audio payload, the function prints a console message
and returns `None` — the same caller-visible value as for a transport
failure; the two conditions are not distinguishable by the caller. -/
theorem C4_no_audio_returns_none (story_text : String) :
    generate_audio_from_generated_story story_text TtsOutcome.noInlineData = (none, false) ∧
      generate_audio_from_generated_story story_text TtsOutcome.remoteRaised = (none, false) :=
  ⟨rfl, rfl⟩

/-- C10: exception totality of `generate_audio_from_generated_story`.  For
every input text and every outcome of the remote call, the encoding step
and the temp-file write (including raised exceptions, all caught by the
catch-all handler), the function returns either the path of the written
WAV temp file or `None`; no exception propagates (the model's result type
has no exception alternative left). -/
theorem C10_audio_generation_total (story_text : String) (o : TtsOutcome) :
    (generate_audio_from_generated_story story_text o).1 = none ∨
      ((generate_audio_from_generated_story story_text o).1 = some tempWavPath ∧
        (generate_audio_from_generated_story story_text o).2 = true) := by
  cases o with
  | remoteRaised => exact Or.inl rfl
  | noInlineData => exact Or.inl rfl
  | inlineData pcm wr =>
    cases he : wav_encode pcm with
    | error e =>
      exact Or.inl (by simp [generate_audio_from_generated_story, audio_try_body, he])
    | ok buf =>
      cases wr with
      | true =>
        exact Or.inl (by simp [generate_audio_from_generated_story, audio_try_body, he])
      | false =>
        exact Or.inr (by simp [generate_audio_from_generated_story, audio_try_body, he])

/-- The audio-button flow of app.py (lines 388-496): call
`generate_audio_from_generated_story`; if it returned a path (to a file
that exists), read and play it and then `os.unlink` it; otherwise show an
error.  `playRaises` says whether an exception occurs between the return
of the path and the unlink (reading the file or `st.audio`); such an
exception is caught by the surrounding `except` which only displays the
error.  Result: (path played, temp file on disk at exit). -/
def generate_audio_button_flow (story_text : String) (o : TtsOutcome)
    (playRaises : Bool) : Option String × Bool :=
  match generate_audio_from_generated_story story_text o with
  | (some path, disk) =>
    if playRaises then (none, disk)
    else (some path, false)
  | (none, disk) => (none, disk)

/-- C9 counterexample: an execution that creates the temporary container
file and exits leaving it on disk.  With a valid 2-byte payload, the
temp file is created, the write into it raises, the function returns
`None`, and the app flow exits via its error branch with the file still
on disk. -/
theorem C9_temp_file_leak_counterexample :
    (generate_audio_from_generated_story "story" (TtsOutcome.inlineData [0, 0] true)).2
        = true ∧
      generate_audio_button_flow "story" (TtsOutcome.inlineData [0, 0] true) false =
        (none, true) :=
  ⟨by decide, by decide⟩

/-- C9 amended: the temporary WAV file is deleted only on the successful
playback path.  At exit of the audio flow the file remains on disk exactly
when it was created and the flow did not reach the successful-playback
branch: either the generation function returned `None` after creating the
file (write failure), or playback raised after the path was returned. -/
theorem C9_temp_file_lifecycle (story_text : String) (o : TtsOutcome) (playRaises : Bool) :
    (generate_audio_button_flow story_text o playRaises).2 = true ↔
      ((generate_audio_from_generated_story story_text o).2 = true ∧
        ((generate_audio_from_generated_story story_text o).1 = none ∨ playRaises = true)) := by
  cases o with
  | remoteRaised => simp [generate_audio_button_flow, generate_audio_from_generated_story,
      audio_try_body]
  | noInlineData => simp [generate_audio_button_flow, generate_audio_from_generated_story,
      audio_try_body]
  | inlineData pcm wr =>
    cases he : wav_encode pcm with
    | error e =>
      simp [generate_audio_button_flow, generate_audio_from_generated_story,
        audio_try_body, he]
    | ok buf =>
      cases wr with
      | true =>
        simp [generate_audio_button_flow, generate_audio_from_generated_story,
          audio_try_body, he]
      | false =>
        cases playRaises with
        | true =>
          simp [generate_audio_button_flow, generate_audio_from_generated_story,
            audio_try_body, he]
        | false =>
          simp [generate_audio_button_flow, generate_audio_from_generated_story,
            audio_try_body, he]

end StoryGen
